import Mathlib

/-!
Shallow embedding of the fingerprint-capture single-page app
(App with method selection / upload / live capture, plus the Camera
component) and proofs of the specified properties.

The React component state is modelled as an explicit record; each event
handler becomes a function from state (plus its inputs and the outcome of
the one network interaction it may perform) to the new state.  The async
submission handlers additionally report the intermediate state rendered
while the request is awaited and the request sent to the processing
endpoint, if any.
-/

namespace SandboxFE

/-- The five finger identifiers offered by the finger-type select control
(the `FingerType` union). -/
inductive FingerType where
  | index
  | middle
  | ring
  | pinky
  | thumb
deriving DecidableEq, Repr

/-- The string value each finger type has in the TS union (and hence in the
`finger_type` form field). -/
def FingerType.str : FingerType → String
  | .index => "index"
  | .middle => "middle"
  | .ring => "ring"
  | .pinky => "pinky"
  | .thumb => "thumb"

/-- The `View` union of App: exactly one view is rendered at a time. -/
inductive View where
  | methodSelection
  | selection
  | camera
  | upload
  | loading
  | result
deriving DecidableEq, Repr

/-- A browser `File`: the fields the app reads (`name` for display, `type`
for MIME validation). -/
structure FileData where
  name : String
  type : String
deriving DecidableEq, Repr

/-- Parsed JSON values, as produced by `response.json()`.  Numbers are
modelled as integers; the claims under verification only involve string
and array payloads. -/
inductive Json where
  | jnull
  | jbool (b : Bool)
  | jnum (n : Int)
  | jstr (s : String)
  | jarr (elems : List Json)
  | jobj (entries : List (String × Json))

mutual

/-- JavaScript `String(v)` on a JSON value: `null`/booleans/numbers print
their literal form, strings pass through, arrays stringify as their
elements joined with "," (Array.prototype.toString), plain objects as
"[object Object]". -/
def jsToString : Json → String
  | .jnull => "null"
  | .jbool b => if b then "true" else "false"
  | .jnum n => toString n
  | .jstr s => s
  | .jarr xs => String.intercalate "," (jsEltStrings xs)
  | .jobj _ => "[object Object]"

/-- Element conversion used by `Array.prototype.join`: `null` elements
become the empty string, all others go through `String(v)`. -/
def jsEltStrings : List Json → List String
  | [] => []
  | Json.jnull :: rest => "" :: jsEltStrings rest
  | j :: rest => jsToString j :: jsEltStrings rest

end

/-- JS `String.prototype.startsWith`, on character lists (used for
`file.type.startsWith('image/')`). -/
def strStartsWith (s pat : String) : Bool :=
  pat.toList.isPrefixOf s.toList

/-- Whether `pat` occurs as a contiguous run inside the list. -/
def listHasInfix (pat : List Char) : List Char → Bool
  | [] => pat.isEmpty
  | c :: rest => pat.isPrefixOf (c :: rest) || listHasInfix pat rest

/-- JS `String.prototype.includes`, on character lists (used for
`err.message.includes('fetch')`). -/
def strIncludes (s pat : String) : Bool :=
  listHasInfix pat.toList s.toList

/-- The `errorData && typeof errorData === 'object'` check: true exactly
for non-null JSON objects and arrays. -/
def isJsObject : Json → Bool
  | .jobj _ => true
  | .jarr _ => true
  | _ => false

/-- `Object.entries` on a parsed JSON value: an object yields its entries,
an array yields index-keyed entries, anything else has none. -/
def objectEntries : Json → List (String × Json)
  | .jobj es => es
  | .jarr xs => xs.enum.map (fun p => (toString p.1, p.2))
  | _ => []

/-- One entry of the error body mapped to text: array values are joined
with ", " (`value.join(', ')`), any other value goes through
`String(value)`. -/
def entryMessage : Json → String
  | .jarr xs => String.intercalate ", " (jsEltStrings xs)
  | v => jsToString v

/-- `Object.entries(errorData).map(...).join('. ')` from the non-ok
response handler. -/
def joinedErrorMessages (entries : List (String × Json)) : String :=
  String.intercalate ". " (entries.map (fun e => entryMessage e.2))

/-- An HTTP response from the processing endpoint: its status and, when the
body parses as JSON, the parsed body (`none` models an unparsable body,
for which `response.json()` rejects). -/
structure HttpResponse where
  status : Nat
  body : Option Json

/-- `response.ok`: status in the 2xx range. -/
def HttpResponse.isOk (r : HttpResponse) : Bool :=
  decide (200 ≤ r.status) && decide (r.status < 300)

/-- The POST request built for `{baseUrl}/finger/capture`: its URL and the
two multipart form fields. -/
structure Request where
  url : String
  finger_type : String
  original_image : FileData
deriving DecidableEq, Repr

/-- Outcome of the `fetch` call, when one is made: either the promise
resolves to a response, or it rejects with an `Error` carrying `msg`
(transport failure). -/
inductive NetOutcome where
  | response (resp : HttpResponse)
  | reject (msg : String)

/-- The App component's state hooks. `result` holds the parsed response
body (the code stores `await response.json()` without validation). -/
structure AppState where
  currentView : View
  selectedFinger : FingerType
  capturedImage : String
  selectedFile : Option FileData
  result : Option Json
  error : String

/-- The initial `useState` values. -/
def initialState : AppState :=
  { currentView := View.methodSelection
    selectedFinger := FingerType.index
    capturedImage := ""
    selectedFile := none
    result := none
    error := "" }

/-- handleSelectLiveCapture. -/
def handleSelectLiveCapture (s : AppState) : AppState :=
  { s with currentView := View.selection, error := "" }

/-- handleSelectUpload. -/
def handleSelectUpload (s : AppState) : AppState :=
  { s with currentView := View.upload, error := "" }

/-- handleProceedToCamera. -/
def handleProceedToCamera (s : AppState) : AppState :=
  { s with currentView := View.camera, error := "" }

/-- The finger-type select's onChange: setSelectedFinger. -/
def selectFinger (s : AppState) (f : FingerType) : AppState :=
  { s with selectedFinger := f }

/-- handleFileSelect: `event.target.files?.[0]` is `file`; a present file
with an image MIME type is stored and the error cleared, otherwise only the
validation error is set. -/
def handleFileSelect (s : AppState) (file : Option FileData) : AppState :=
  match file with
  | some f =>
    if strStartsWith f.type "image/" then
      { s with selectedFile := some f, error := "" }
    else
      { s with error := "Please select a valid image file" }
  | none => { s with error := "Please select a valid image file" }

/-- handleRetake: clears result, captured image, selected file and error,
and returns to method selection. -/
def handleRetake (s : AppState) : AppState :=
  { s with result := none
           capturedImage := ""
           selectedFile := none
           error := ""
           currentView := View.methodSelection }

/-- `!baseUrl` on `import.meta.env.VITE_API_BASE_URL`: falsy when the
variable is undefined or empty. -/
def baseUrlMissing : Option String → Bool
  | none => true
  | some s => decide (s = "")

/-- The message of the error thrown for a non-ok response by status alone
(body absent or not an object). -/
def statusFallback (status : Nat) : String :=
  if 500 ≤ status then "Server error. Please try again later."
  else "Failed to process fingerprint. Please try again."

/-- The message of the error thrown inside the `!response.ok` block:
a parsed object body is mapped entry-wise and joined (with the
`|| 'Failed to process fingerprint'` fallback when the join is empty);
otherwise the status decides between the two generic messages. -/
def remoteErrorMessage (resp : HttpResponse) : String :=
  match resp.body with
  | some errorData =>
    if isJsObject errorData then
      let errorMessages := joinedErrorMessages (objectEntries errorData)
      if errorMessages = "" then "Failed to process fingerprint" else errorMessages
    else statusFallback resp.status
  | none => statusFallback resp.status

/-- The catch block's message derivation: an `err.message` containing
"fetch" becomes the generic network-error message, any other message is
shown as is. -/
def catchMessage (m : String) : String :=
  if strIncludes m "fetch" then "Network error. Please check your connection."
  else m

/-- The catch block of handleUploadSubmit: sets the derived error and
returns to the upload view. -/
def uploadCatch (s : AppState) (m : String) : AppState :=
  { s with error := catchMessage m, currentView := View.upload }

/-- The catch block of handleCapture: sets the derived error and returns to
the camera view. -/
def cameraCatch (s : AppState) (m : String) : AppState :=
  { s with error := catchMessage m, currentView := View.camera }

/-- The observable run of an async submission handler: the state rendered
while the request is awaited (none when the handler returned before
starting), the state after the handler finishes, and the request sent to
the processing endpoint, if any. -/
structure SubmitTrace where
  loading : Option AppState
  final : AppState
  request : Option Request

/-- handleUploadSubmit.  `cfg` is the base-URL environment setting, `net`
the outcome of the fetch (relevant only when a request is sent),
`syntaxErr` the message of the exception `response.json()` raises when a
2xx body is unparsable. -/
def handleUploadSubmit (s : AppState) (cfg : Option String) (net : NetOutcome)
    (syntaxErr : String) : SubmitTrace :=
  match s.selectedFile with
  | none =>
    { loading := none
      final := { s with error := "Please select an image file" }
      request := none }
  | some selectedFile =>
    let sLoading := { s with currentView := View.loading, error := "" }
    if baseUrlMissing cfg then
      { loading := some sLoading
        final := uploadCatch sLoading "API base URL is not configured"
        request := none }
    else
      let req : Request :=
        { url := cfg.getD "" ++ "/finger/capture"
          finger_type := s.selectedFinger.str
          original_image := selectedFile }
      match net with
      | .reject m =>
        { loading := some sLoading
          final := uploadCatch sLoading m
          request := some req }
      | .response resp =>
        if resp.isOk then
          match resp.body with
          | some data =>
            { loading := some sLoading
              final := { sLoading with result := some data, currentView := View.result }
              request := some req }
          | none =>
            { loading := some sLoading
              final := uploadCatch sLoading syntaxErr
              request := some req }
        else
          { loading := some sLoading
            final := uploadCatch sLoading (remoteErrorMessage resp)
            request := some req }

/-- handleCapture.  The captured frame `imageData` is stored, the view goes
to loading, and the frame is wrapped as the file `fingerprint.png` of type
`image/png` and submitted exactly as in handleUploadSubmit, except that
failures return to the camera view.  The data-URI fetch that rebuilds the
blob is modelled as always succeeding: its input comes from
canvas.toDataURL and is well-formed. -/
def handleCapture (s : AppState) (imageData : String) (cfg : Option String)
    (net : NetOutcome) (syntaxErr : String) : SubmitTrace :=
  let sLoading := { s with capturedImage := imageData, currentView := View.loading, error := "" }
  if baseUrlMissing cfg then
    { loading := some sLoading
      final := cameraCatch sLoading "API base URL is not configured"
      request := none }
  else
    let req : Request :=
      { url := cfg.getD "" ++ "/finger/capture"
        finger_type := s.selectedFinger.str
        original_image := { name := "fingerprint.png", type := "image/png" } }
    match net with
    | .reject m =>
      { loading := some sLoading
        final := cameraCatch sLoading m
        request := some req }
    | .response resp =>
      if resp.isOk then
        match resp.body with
        | some data =>
          { loading := some sLoading
            final := { sLoading with result := some data, currentView := View.result }
            request := some req }
        | none =>
          { loading := some sLoading
            final := cameraCatch sLoading syntaxErr
            request := some req }
      else
        { loading := some sLoading
          final := cameraCatch sLoading (remoteErrorMessage resp)
          request := some req }

/-- The JSX renders the inline error banner only in the camera and upload
views, and only when `error` is truthy (non-empty). -/
def rendersErrorBanner (s : AppState) : Bool :=
  (decide (s.currentView = View.camera) || decide (s.currentView = View.upload))
    && !(decide (s.error = ""))

/-- The user interactions App exposes.  Handlers are modelled as available
from any state, a superset of the interactions reachable through the
rendered UI. -/
inductive Event where
  | selectLiveCapture
  | selectUpload
  | proceedToCamera
  | backToMethodSelection
  | backToSelection
  | changeFinger (f : FingerType)
  | fileSelect (file : Option FileData)
  | uploadSubmit (cfg : Option String) (net : NetOutcome) (syntaxErr : String)
  | capture (imageData : String) (cfg : Option String) (net : NetOutcome) (syntaxErr : String)
  | retake

/-- One user interaction's effect on the App state (submission events end
in their trace's final state). -/
def step (s : AppState) : Event → AppState
  | .selectLiveCapture => handleSelectLiveCapture s
  | .selectUpload => handleSelectUpload s
  | .proceedToCamera => handleProceedToCamera s
  | .backToMethodSelection => { s with currentView := View.methodSelection }
  | .backToSelection => { s with currentView := View.selection }
  | .changeFinger f => selectFinger s f
  | .fileSelect file => handleFileSelect s file
  | .uploadSubmit cfg net se => (handleUploadSubmit s cfg net se).final
  | .capture img cfg net se => (handleCapture s img cfg net se).final
  | .retake => handleRetake s

/-- The request, if any, an interaction sends to the processing endpoint. -/
def stepRequest (s : AppState) : Event → Option Request
  | .uploadSubmit cfg net se => (handleUploadSubmit s cfg net se).request
  | .capture img cfg net se => (handleCapture s img cfg net se).request
  | _ => none

/-- States the App can be in after any finite sequence of interactions. -/
inductive Reachable : AppState → Prop where
  | init : Reachable initialState
  | step {s : AppState} (e : Event) : Reachable s → Reachable (step s e)

/-!  The Camera component.  Its event handlers are state updates; the
constraint applications `applySettings` performs on the active track are a
function of the state it reads.  In the source, the `applySettings()` call
inside `toggleMacroMode` still sees the pre-toggle React state (the state
setters only take effect at the next render); the effect hooked on
`[isFlashOn, isMacroMode]` then re-runs `applySettings` against the updated
state, which is the application this model exposes. -/

/-- The Camera component's state hooks (the `exposureMode` hook exists in
the source but is never updated or read by `applySettings`, which uses
literal mode strings). -/
structure CameraState where
  isMacroMode : Bool
  isFlashOn : Bool
  exposureMode : String
  exposureTime : Rat
  exposureCompensation : Rat
  iso : Rat
deriving DecidableEq, Repr

/-- The initial `useState` values of the Camera component. -/
def initialCameraState : CameraState :=
  { isMacroMode := true
    isFlashOn := true
    exposureMode := "manual"
    exposureTime := 2.5
    exposureCompensation := 0
    iso := 400 }

/-- An advanced constraint set applied to the active video track. -/
inductive TrackConstraint where
  | torch (enabled : Bool)
  | manualExposure (exposureTime exposureCompensation iso : Rat)
  | continuousExposure
deriving DecidableEq, Repr

/-- applySettings: the torch constraint is applied first, then the exposure
constraints of the current mode ({exposureMode: manual, exposureTime,
exposureCompensation, iso} in macro mode, {exposureMode: continuous,
exposureCompensation: 0} otherwise).  Per-attempt failures are caught and
do not change which constraints are attempted. -/
def applySettings (s : CameraState) : List TrackConstraint :=
  [TrackConstraint.torch s.isFlashOn] ++
    (if s.isMacroMode then
      [TrackConstraint.manualExposure s.exposureTime s.exposureCompensation s.iso]
    else
      [TrackConstraint.continuousExposure])

/-- toggleMacroMode: flips the mode; when the new mode is macro, the three
exposure values are reset to their defaults. -/
def toggleMacroMode (s : CameraState) : CameraState :=
  let newMacroMode := !s.isMacroMode
  if newMacroMode then
    { s with isMacroMode := newMacroMode
             exposureTime := 2.5
             iso := 400
             exposureCompensation := 0 }
  else
    { s with isMacroMode := newMacroMode }

/-- toggleFlash. -/
def toggleFlash (s : CameraState) : CameraState :=
  { s with isFlashOn := !s.isFlashOn }

/-! Helper lemmas about the submission handlers. -/

theorem uploadSubmit_final_selectedFile (s : AppState) (cfg : Option String)
    (net : NetOutcome) (se : String) :
    (handleUploadSubmit s cfg net se).final.selectedFile = s.selectedFile := by
  unfold handleUploadSubmit uploadCatch
  repeat' split
  all_goals rfl

theorem capture_final_selectedFile (s : AppState) (img : String) (cfg : Option String)
    (net : NetOutcome) (se : String) :
    (handleCapture s img cfg net se).final.selectedFile = s.selectedFile := by
  unfold handleCapture cameraCatch
  repeat' split
  all_goals rfl

theorem uploadSubmit_request_eq (s : AppState) (cfg : Option String) (net : NetOutcome)
    (se : String) (file : FileData) (hsel : s.selectedFile = some file)
    (hcfg : baseUrlMissing cfg = false) :
    (handleUploadSubmit s cfg net se).request =
      some { url := cfg.getD "" ++ "/finger/capture"
             finger_type := s.selectedFinger.str
             original_image := file } := by
  unfold handleUploadSubmit
  rw [hsel]
  simp only [hcfg, Bool.false_eq_true, if_false]
  cases net with
  | reject m => rfl
  | response resp =>
    by_cases hok : resp.isOk = true
    · simp only [hok, if_true]
      cases resp.body <;> rfl
    · simp only [Bool.not_eq_true] at hok
      simp only [hok, Bool.false_eq_true, if_false]

theorem uploadSubmit_request_none (s : AppState) (cfg : Option String) (net : NetOutcome)
    (se : String) (hmiss : s.selectedFile = none ∨ baseUrlMissing cfg = true) :
    (handleUploadSubmit s cfg net se).request = none := by
  unfold handleUploadSubmit
  rcases hmiss with hsel | hcfg
  · rw [hsel]
  · cases hsel : s.selectedFile with
    | none => rfl
    | some file => simp only [hcfg, if_true]

theorem uploadSubmit_request_spec (s : AppState) (cfg : Option String) (net : NetOutcome)
    (se : String) (req : Request)
    (h : (handleUploadSubmit s cfg net se).request = some req) :
    s.selectedFile = some req.original_image ∧ req.finger_type = s.selectedFinger.str := by
  cases hsel : s.selectedFile with
  | none =>
    rw [uploadSubmit_request_none s cfg net se (Or.inl hsel)] at h
    exact absurd h (by simp)
  | some file =>
    by_cases hcfg : baseUrlMissing cfg = true
    · rw [uploadSubmit_request_none s cfg net se (Or.inr hcfg)] at h
      exact absurd h (by simp)
    · simp only [Bool.not_eq_true] at hcfg
      rw [uploadSubmit_request_eq s cfg net se file hsel hcfg] at h
      have hreq : req = { url := cfg.getD "" ++ "/finger/capture"
                          finger_type := s.selectedFinger.str
                          original_image := file } := (Option.some.inj h).symm
      subst hreq
      exact ⟨rfl, rfl⟩

theorem capture_request_eq (s : AppState) (img : String) (cfg : Option String)
    (net : NetOutcome) (se : String) (hcfg : baseUrlMissing cfg = false) :
    (handleCapture s img cfg net se).request =
      some { url := cfg.getD "" ++ "/finger/capture"
             finger_type := s.selectedFinger.str
             original_image := { name := "fingerprint.png", type := "image/png" } } := by
  unfold handleCapture
  simp only [hcfg, Bool.false_eq_true, if_false]
  cases net with
  | reject m => rfl
  | response resp =>
    by_cases hok : resp.isOk = true
    · simp only [hok, if_true]
      cases resp.body <;> rfl
    · simp only [Bool.not_eq_true] at hok
      simp only [hok, Bool.false_eq_true, if_false]

theorem capture_request_none (s : AppState) (img : String) (cfg : Option String)
    (net : NetOutcome) (se : String) (hcfg : baseUrlMissing cfg = true) :
    (handleCapture s img cfg net se).request = none := by
  unfold handleCapture
  simp only [hcfg, if_true]

theorem remoteErrorMessage_ne_empty (resp : HttpResponse) : remoteErrorMessage resp ≠ "" := by
  obtain ⟨status, body⟩ := resp
  have hfb : statusFallback status ≠ "" := by
    unfold statusFallback
    split <;> decide
  cases body with
  | none => exact hfb
  | some j =>
    show (if isJsObject j = true then
        if joinedErrorMessages (objectEntries j) = "" then "Failed to process fingerprint"
        else joinedErrorMessages (objectEntries j)
      else statusFallback status) ≠ ""
    split
    · split
      · decide
      · assumption
    · exact hfb

theorem catchMessage_ne_empty (m : String) (h : m ≠ "") : catchMessage m ≠ "" := by
  unfold catchMessage
  split
  · decide
  · exact h

theorem rendersErrorBanner_true (s : AppState)
    (hv : s.currentView = View.camera ∨ s.currentView = View.upload) (he : s.error ≠ "") :
    rendersErrorBanner s = true := by
  unfold rendersErrorBanner
  rcases hv with hv | hv <;> simp [hv, he]

theorem capture_request_spec (s : AppState) (img : String) (cfg : Option String)
    (net : NetOutcome) (se : String) (req : Request)
    (h : (handleCapture s img cfg net se).request = some req) :
    req.original_image = { name := "fingerprint.png", type := "image/png" }
      ∧ req.finger_type = s.selectedFinger.str := by
  by_cases hcfg : baseUrlMissing cfg = true
  · rw [capture_request_none s img cfg net se hcfg] at h
    exact absurd h (by simp)
  · simp only [Bool.not_eq_true] at hcfg
    rw [capture_request_eq s img cfg net se hcfg] at h
    have hreq : req = { url := cfg.getD "" ++ "/finger/capture"
                        finger_type := s.selectedFinger.str
                        original_image := { name := "fingerprint.png", type := "image/png" } } :=
      (Option.some.inj h).symm
    subst hreq
    exact ⟨rfl, rfl⟩

theorem handleFileSelect_selectedFile (s : AppState) (file : Option FileData) :
    (handleFileSelect s file).selectedFile = s.selectedFile
      ∨ ∃ g, file = some g ∧ strStartsWith g.type "image/" = true
          ∧ (handleFileSelect s file).selectedFile = some g := by
  cases file with
  | none => exact Or.inl rfl
  | some g =>
    by_cases hg : strStartsWith g.type "image/" = true
    · exact Or.inr ⟨g, rfl, hg, by simp [handleFileSelect, hg]⟩
    · left
      simp [handleFileSelect, hg]

theorem reachable_selectedFile_image {s : AppState} (h : Reachable s) :
    ∀ f : FileData, s.selectedFile = some f → strStartsWith f.type "image/" = true := by
  induction h with
  | init =>
    intro f hf
    exact absurd hf (by simp [initialState])
  | @step s' e _ ih =>
    intro f hf
    cases e with
    | selectLiveCapture => exact ih f hf
    | selectUpload => exact ih f hf
    | proceedToCamera => exact ih f hf
    | backToMethodSelection => exact ih f hf
    | backToSelection => exact ih f hf
    | changeFinger g => exact ih f hf
    | fileSelect file =>
      have hf' : (handleFileSelect s' file).selectedFile = some f := hf
      rcases handleFileSelect_selectedFile s' file with heq | ⟨g, -, hg, heq⟩
      · rw [heq] at hf'
        exact ih f hf'
      · rw [heq] at hf'
        exact Option.some.inj hf' ▸ hg
    | uploadSubmit cfg net se =>
      have hf' : (handleUploadSubmit s' cfg net se).final.selectedFile = some f := hf
      rw [uploadSubmit_final_selectedFile] at hf'
      exact ih f hf'
    | capture img cfg net se =>
      have hf' : (handleCapture s' img cfg net se).final.selectedFile = some f := hf
      rw [capture_final_selectedFile] at hf'
      exact ih f hf'
    | retake =>
      exact Option.noConfusion (hf : (none : Option FileData) = some f)

theorem uploadSubmit_noCfg (s : AppState) (cfg : Option String) (net : NetOutcome)
    (se : String) (file : FileData) (hsel : s.selectedFile = some file)
    (hcfg : baseUrlMissing cfg = true) :
    handleUploadSubmit s cfg net se =
      { loading := some { s with currentView := View.loading, error := "" }
        final := uploadCatch { s with currentView := View.loading, error := "" }
          "API base URL is not configured"
        request := none } := by
  unfold handleUploadSubmit
  rw [hsel]
  simp only [hcfg, if_true]

theorem uploadSubmit_reject (s : AppState) (cfg : Option String) (m se : String)
    (file : FileData) (hsel : s.selectedFile = some file)
    (hcfg : baseUrlMissing cfg = false) :
    handleUploadSubmit s cfg (NetOutcome.reject m) se =
      { loading := some { s with currentView := View.loading, error := "" }
        final := uploadCatch { s with currentView := View.loading, error := "" } m
        request := some { url := cfg.getD "" ++ "/finger/capture"
                          finger_type := s.selectedFinger.str
                          original_image := file } } := by
  unfold handleUploadSubmit
  rw [hsel]
  simp only [hcfg, Bool.false_eq_true, if_false]

theorem uploadSubmit_badResponse (s : AppState) (cfg : Option String) (resp : HttpResponse)
    (se : String) (file : FileData) (hsel : s.selectedFile = some file)
    (hcfg : baseUrlMissing cfg = false) (hok : resp.isOk = false) :
    handleUploadSubmit s cfg (NetOutcome.response resp) se =
      { loading := some { s with currentView := View.loading, error := "" }
        final := uploadCatch { s with currentView := View.loading, error := "" }
          (remoteErrorMessage resp)
        request := some { url := cfg.getD "" ++ "/finger/capture"
                          finger_type := s.selectedFinger.str
                          original_image := file } } := by
  unfold handleUploadSubmit
  rw [hsel]
  simp only [hcfg, hok, Bool.false_eq_true, if_false]

theorem uploadSubmit_success (s : AppState) (cfg : Option String) (resp : HttpResponse)
    (body : Json) (se : String) (file : FileData) (hsel : s.selectedFile = some file)
    (hcfg : baseUrlMissing cfg = false) (hok : resp.isOk = true)
    (hbody : resp.body = some body) :
    handleUploadSubmit s cfg (NetOutcome.response resp) se =
      { loading := some { s with currentView := View.loading, error := "" }
        final := { s with currentView := View.result, error := "", result := some body }
        request := some { url := cfg.getD "" ++ "/finger/capture"
                          finger_type := s.selectedFinger.str
                          original_image := file } } := by
  unfold handleUploadSubmit
  rw [hsel]
  simp only [hcfg, hok, Bool.false_eq_true, if_false, if_true, hbody]

theorem capture_noCfg (s : AppState) (img : String) (cfg : Option String) (net : NetOutcome)
    (se : String) (hcfg : baseUrlMissing cfg = true) :
    handleCapture s img cfg net se =
      { loading := some { s with capturedImage := img, currentView := View.loading, error := "" }
        final := cameraCatch { s with capturedImage := img, currentView := View.loading, error := "" }
          "API base URL is not configured"
        request := none } := by
  unfold handleCapture
  simp only [hcfg, if_true]

theorem capture_reject (s : AppState) (img : String) (cfg : Option String) (m se : String)
    (hcfg : baseUrlMissing cfg = false) :
    handleCapture s img cfg (NetOutcome.reject m) se =
      { loading := some { s with capturedImage := img, currentView := View.loading, error := "" }
        final := cameraCatch { s with capturedImage := img, currentView := View.loading, error := "" } m
        request := some { url := cfg.getD "" ++ "/finger/capture"
                          finger_type := s.selectedFinger.str
                          original_image := { name := "fingerprint.png", type := "image/png" } } } := by
  unfold handleCapture
  simp only [hcfg, Bool.false_eq_true, if_false]

theorem capture_badResponse (s : AppState) (img : String) (cfg : Option String)
    (resp : HttpResponse) (se : String) (hcfg : baseUrlMissing cfg = false)
    (hok : resp.isOk = false) :
    handleCapture s img cfg (NetOutcome.response resp) se =
      { loading := some { s with capturedImage := img, currentView := View.loading, error := "" }
        final := cameraCatch { s with capturedImage := img, currentView := View.loading, error := "" }
          (remoteErrorMessage resp)
        request := some { url := cfg.getD "" ++ "/finger/capture"
                          finger_type := s.selectedFinger.str
                          original_image := { name := "fingerprint.png", type := "image/png" } } } := by
  unfold handleCapture
  simp only [hcfg, hok, Bool.false_eq_true, if_false]

theorem capture_success (s : AppState) (img : String) (cfg : Option String)
    (resp : HttpResponse) (body : Json) (se : String) (hcfg : baseUrlMissing cfg = false)
    (hok : resp.isOk = true) (hbody : resp.body = some body) :
    handleCapture s img cfg (NetOutcome.response resp) se =
      { loading := some { s with capturedImage := img, currentView := View.loading, error := "" }
        final := { s with capturedImage := img, currentView := View.result, error := ""
                          result := some body }
        request := some { url := cfg.getD "" ++ "/finger/capture"
                          finger_type := s.selectedFinger.str
                          original_image := { name := "fingerprint.png", type := "image/png" } } } := by
  unfold handleCapture
  simp only [hcfg, hok, Bool.false_eq_true, if_false, if_true, hbody]

theorem reachable_request_image {s : AppState} (h : Reachable s) (e : Event) (req : Request)
    (hreq : stepRequest s e = some req) :
    strStartsWith req.original_image.type "image/" = true := by
  cases e <;> simp only [stepRequest] at hreq <;> try exact absurd hreq (by simp)
  case uploadSubmit cfg net se =>
    obtain ⟨hsel, -⟩ := uploadSubmit_request_spec s cfg net se req hreq
    exact reachable_selectedFile_image h req.original_image hsel
  case capture img cfg net se =>
    obtain ⟨himg, -⟩ := capture_request_spec s img cfg net se req hreq
    rw [himg]
    decide

theorem remoteErrorMessage_object (resp : HttpResponse) (body : Json)
    (hbody : resp.body = some body) (hobj : isJsObject body = true)
    (hne : joinedErrorMessages (objectEntries body) ≠ "") :
    remoteErrorMessage resp = joinedErrorMessages (objectEntries body) := by
  obtain ⟨status, b⟩ := resp
  cases hbody
  show (if isJsObject body = true then
      if joinedErrorMessages (objectEntries body) = "" then "Failed to process fingerprint"
      else joinedErrorMessages (objectEntries body)
    else statusFallback status) = _
  rw [if_pos hobj, if_neg hne]

theorem remoteErrorMessage_not_object (resp : HttpResponse)
    (hbody : ∀ j, resp.body = some j → isJsObject j = false) :
    remoteErrorMessage resp = statusFallback resp.status := by
  obtain ⟨status, b⟩ := resp
  cases b with
  | none => rfl
  | some j =>
    have hj := hbody j rfl
    show (if isJsObject j = true then
        if joinedErrorMessages (objectEntries j) = "" then "Failed to process fingerprint"
        else joinedErrorMessages (objectEntries j)
      else statusFallback status) = _
    rw [if_neg (by simp [hj])]

theorem catchMessage_id (m : String) (h : strIncludes m "fetch" = false) :
    catchMessage m = m := by
  unfold catchMessage
  rw [if_neg (by simp [h])]

/-! Concrete fixtures used by the scenario instances below. -/

/-- A valid image file. -/
def pngFile : FileData := { name := "finger.png", type := "image/png" }

/-- A non-image file. -/
def textFile : FileData := { name := "notes.txt", type := "text/plain" }

/-- The upload view with a valid image already selected. -/
def uploadReadyState : AppState :=
  { initialState with currentView := View.upload, selectedFile := some pngFile }

/-! The specified properties. -/

/-- C1: for every finger type, selecting it and proceeding to submission — via file upload or
live capture — yields a request whose finger_type form field is exactly that finger's value. -/
theorem selected_finger_reaches_request (f : FingerType) (s : AppState) (cfg : Option String)
    (net : NetOutcome) (se img : String) :
    (selectFinger s f).selectedFinger = f
    ∧ (∀ req : Request, (handleUploadSubmit (selectFinger s f) cfg net se).request = some req →
        req.finger_type = f.str)
    ∧ (∀ req : Request, (handleCapture (selectFinger s f) img cfg net se).request = some req →
        req.finger_type = f.str) := by
  refine ⟨rfl, ?_, ?_⟩
  · intro req h
    exact (uploadSubmit_request_spec _ cfg net se req h).2
  · intro req h
    exact (capture_request_spec _ img cfg net se req h).2

/-- Witness: a concrete upload submission after selecting the middle finger carries
finger_type "middle". -/
theorem selected_finger_reaches_request_witness :
    (handleUploadSubmit (selectFinger uploadReadyState FingerType.middle) (some "http://api")
        (NetOutcome.response { status := 200, body := some (Json.jstr "ok") }) "e").request
      = some { url := "http://api/finger/capture", finger_type := "middle"
               original_image := pngFile }
    ∧ ("middle" : String) = FingerType.middle.str := by
  refine ⟨rfl, ?_⟩
  exact ((selected_finger_reaches_request FingerType.middle uploadReadyState (some "http://api")
      (NetOutcome.response { status := 200, body := some (Json.jstr "ok") }) "e" "i").2.1
      { url := "http://api/finger/capture", finger_type := "middle", original_image := pngFile }
      rfl).symm

/-- C2: a successful (2xx, parsable) submission moves the view from loading to result and stores
the parsed response; retake from the result view returns to method selection with the captured
image, the selected file, the result and the error all cleared. -/
theorem success_then_retake (s : AppState) (file : FileData) (cfg : Option String)
    (resp : HttpResponse) (body : Json) (se img : String)
    (hsel : s.selectedFile = some file) (hcfg : baseUrlMissing cfg = false)
    (hok : resp.isOk = true) (hbody : resp.body = some body) :
    ((handleUploadSubmit s cfg (NetOutcome.response resp) se).loading
        = some { s with currentView := View.loading, error := "" }
      ∧ (handleUploadSubmit s cfg (NetOutcome.response resp) se).final.currentView = View.result
      ∧ (handleUploadSubmit s cfg (NetOutcome.response resp) se).final.result = some body)
    ∧ ((handleCapture s img cfg (NetOutcome.response resp) se).loading
        = some { s with capturedImage := img, currentView := View.loading, error := "" }
      ∧ (handleCapture s img cfg (NetOutcome.response resp) se).final.currentView = View.result
      ∧ (handleCapture s img cfg (NetOutcome.response resp) se).final.result = some body)
    ∧ (∀ t : AppState,
        (handleRetake t).currentView = View.methodSelection
        ∧ (handleRetake t).capturedImage = ""
        ∧ (handleRetake t).selectedFile = none
        ∧ (handleRetake t).result = none
        ∧ (handleRetake t).error = "") := by
  rw [uploadSubmit_success s cfg resp body se file hsel hcfg hok hbody,
      capture_success s img cfg resp body se hcfg hok hbody]
  exact ⟨⟨rfl, rfl, rfl⟩, ⟨rfl, rfl, rfl⟩, fun t => ⟨rfl, rfl, rfl, rfl, rfl⟩⟩

/-- Witness: a concrete successful submission ends in the result view holding the parsed body,
and retake from there clears everything. -/
theorem success_then_retake_witness :
    (handleUploadSubmit uploadReadyState (some "http://api")
        (NetOutcome.response { status := 200, body := some (Json.jstr "ok") }) "e").final.currentView
      = View.result
    ∧ (handleRetake (handleUploadSubmit uploadReadyState (some "http://api")
        (NetOutcome.response { status := 200, body := some (Json.jstr "ok") }) "e").final).selectedFile
      = none := by
  have h := success_then_retake uploadReadyState pngFile (some "http://api")
    { status := 200, body := some (Json.jstr "ok") } (Json.jstr "ok") "e" "i"
    rfl rfl rfl rfl
  exact ⟨h.1.2.1, (h.2.2 _).2.2.1⟩

/-- C3 as stated fails: a non-2xx object body whose joined entry message contains "fetch" is
displayed as the generic network-error message, not as the joined message the claim specifies. -/
theorem object_body_message_counterexample :
    (handleUploadSubmit uploadReadyState (some "http://api")
        (NetOutcome.response
          { status := 400, body := some (Json.jobj [("detail", Json.jstr "fetch blocked")]) })
        "e").final.error
      = "Network error. Please check your connection."
    ∧ joinedErrorMessages (objectEntries (Json.jobj [("detail", Json.jstr "fetch blocked")]))
      = "fetch blocked"
    ∧ ("Network error. Please check your connection." : String) ≠ "fetch blocked" :=
  ⟨rfl, rfl, by decide⟩

/-- C3 (amended): for every non-2xx response whose body parses to a JSON object, the joined
entry message (array values joined with ", ", other values stringified, entries joined with
". ") is displayed verbatim provided it is non-empty and does not contain the substring
"fetch" (an empty join falls back to "Failed to process fingerprint"; a join containing
"fetch" is replaced by the generic network-error message); in particular the body
`{"field": ["error one", "error two"]}` produces exactly "error one, error two". -/
theorem object_body_error_message (s : AppState) (file : FileData) (cfg : Option String)
    (resp : HttpResponse) (body : Json) (se img : String)
    (hsel : s.selectedFile = some file) (hcfg : baseUrlMissing cfg = false)
    (hok : resp.isOk = false) (hbody : resp.body = some body) (hobj : isJsObject body = true)
    (hne : joinedErrorMessages (objectEntries body) ≠ "")
    (hfetch : strIncludes (joinedErrorMessages (objectEntries body)) "fetch" = false) :
    (handleUploadSubmit s cfg (NetOutcome.response resp) se).final.error
      = joinedErrorMessages (objectEntries body)
    ∧ (handleCapture s img cfg (NetOutcome.response resp) se).final.error
      = joinedErrorMessages (objectEntries body)
    ∧ (handleUploadSubmit uploadReadyState (some "http://api")
        (NetOutcome.response
          { status := 400
            body := some (Json.jobj [("field", Json.jarr [Json.jstr "error one", Json.jstr "error two"])]) })
        "e").final.error
      = "error one, error two" := by
  have hmsg : remoteErrorMessage resp = joinedErrorMessages (objectEntries body) :=
    remoteErrorMessage_object resp body hbody hobj hne
  refine ⟨?_, ?_, rfl⟩
  · rw [uploadSubmit_badResponse s cfg resp se file hsel hcfg hok]
    show catchMessage (remoteErrorMessage resp) = _
    rw [hmsg, catchMessage_id _ hfetch]
  · rw [capture_badResponse s img cfg resp se hcfg hok]
    show catchMessage (remoteErrorMessage resp) = _
    rw [hmsg, catchMessage_id _ hfetch]

/-- Witness: the concrete body `{"field": ["error one", "error two"]}` on a 400 is displayed
as "error one, error two". -/
theorem object_body_error_message_witness :
    (handleUploadSubmit uploadReadyState (some "http://api")
        (NetOutcome.response
          { status := 400
            body := some (Json.jobj [("field", Json.jarr [Json.jstr "error one", Json.jstr "error two"])]) })
        "e").final.error
      = "error one, error two" := by
  have h := object_body_error_message uploadReadyState pngFile (some "http://api")
    { status := 400
      body := some (Json.jobj [("field", Json.jarr [Json.jstr "error one", Json.jstr "error two"])]) }
    (Json.jobj [("field", Json.jarr [Json.jstr "error one", Json.jstr "error two"])])
    "e" "i" rfl rfl rfl rfl rfl (by decide) (by decide)
  exact h.1

/-- C4: for a non-2xx response whose body is not parsable as a JSON object, status at least 500
gives the generic server-error message and status in [400, 500) the generic retry message, on
both submission paths. -/
theorem unparsable_body_generic_message (s : AppState) (file : FileData) (cfg : Option String)
    (resp : HttpResponse) (se img : String)
    (hsel : s.selectedFile = some file) (hcfg : baseUrlMissing cfg = false)
    (hok : resp.isOk = false)
    (hbody : ∀ j, resp.body = some j → isJsObject j = false) :
    (500 ≤ resp.status →
      (handleUploadSubmit s cfg (NetOutcome.response resp) se).final.error
        = "Server error. Please try again later."
      ∧ (handleCapture s img cfg (NetOutcome.response resp) se).final.error
        = "Server error. Please try again later.")
    ∧ (400 ≤ resp.status → resp.status < 500 →
      (handleUploadSubmit s cfg (NetOutcome.response resp) se).final.error
        = "Failed to process fingerprint. Please try again."
      ∧ (handleCapture s img cfg (NetOutcome.response resp) se).final.error
        = "Failed to process fingerprint. Please try again.") := by
  have hmsg : remoteErrorMessage resp = statusFallback resp.status :=
    remoteErrorMessage_not_object resp hbody
  rw [uploadSubmit_badResponse s cfg resp se file hsel hcfg hok,
      capture_badResponse s img cfg resp se hcfg hok]
  constructor
  · intro h500
    have hfb : statusFallback resp.status = "Server error. Please try again later." := by
      unfold statusFallback
      rw [if_pos h500]
    constructor
    · show catchMessage (remoteErrorMessage resp) = _
      rw [hmsg, hfb, catchMessage_id _ (by decide)]
    · show catchMessage (remoteErrorMessage resp) = _
      rw [hmsg, hfb, catchMessage_id _ (by decide)]
  · intro h400 h500
    have hfb : statusFallback resp.status = "Failed to process fingerprint. Please try again." := by
      unfold statusFallback
      rw [if_neg (by omega)]
    constructor
    · show catchMessage (remoteErrorMessage resp) = _
      rw [hmsg, hfb, catchMessage_id _ (by decide)]
    · show catchMessage (remoteErrorMessage resp) = _
      rw [hmsg, hfb, catchMessage_id _ (by decide)]

/-- Witness: a 500 with unparsable body shows the server-error message, a 400 with unparsable
body the retry message. -/
theorem unparsable_body_generic_message_witness :
    (handleUploadSubmit uploadReadyState (some "http://api")
        (NetOutcome.response { status := 500, body := none }) "e").final.error
      = "Server error. Please try again later."
    ∧ (handleUploadSubmit uploadReadyState (some "http://api")
        (NetOutcome.response { status := 400, body := none }) "e").final.error
      = "Failed to process fingerprint. Please try again." := by
  have h5 := unparsable_body_generic_message uploadReadyState pngFile (some "http://api")
    { status := 500, body := none } "e" "i" rfl rfl rfl (by intro j hj; cases hj)
  have h4 := unparsable_body_generic_message uploadReadyState pngFile (some "http://api")
    { status := 400, body := none } "e" "i" rfl rfl rfl (by intro j hj; cases hj)
  exact ⟨(h5.1 (by norm_num)).1, (h4.2 (by norm_num) (by norm_num)).1⟩

/-- C5: on every submission failure — missing configuration, transport failure (whose Error
message, as browsers produce it, is non-empty), or non-2xx response — the view goes from
loading back to the originating acquisition view (upload for file upload, camera for live
capture) with a non-empty derived error message that is rendered in that view. -/
theorem failure_returns_to_origin (s : AppState) (file : FileData) (cfg : Option String)
    (net : NetOutcome) (se img : String) (hsel : s.selectedFile = some file)
    (hfail : baseUrlMissing cfg = true
      ∨ (∃ m, net = NetOutcome.reject m ∧ m ≠ "")
      ∨ (∃ resp, net = NetOutcome.response resp ∧ resp.isOk = false)) :
    ((handleUploadSubmit s cfg net se).loading
        = some { s with currentView := View.loading, error := "" }
      ∧ (handleUploadSubmit s cfg net se).final.currentView = View.upload
      ∧ (handleUploadSubmit s cfg net se).final.error ≠ ""
      ∧ rendersErrorBanner (handleUploadSubmit s cfg net se).final = true)
    ∧ ((handleCapture s img cfg net se).loading
        = some { s with capturedImage := img, currentView := View.loading, error := "" }
      ∧ (handleCapture s img cfg net se).final.currentView = View.camera
      ∧ (handleCapture s img cfg net se).final.error ≠ ""
      ∧ rendersErrorBanner (handleCapture s img cfg net se).final = true) := by
  by_cases hcfg : baseUrlMissing cfg = true
  · rw [uploadSubmit_noCfg s cfg net se file hsel hcfg, capture_noCfg s img cfg net se hcfg]
    have hne : catchMessage "API base URL is not configured" ≠ "" := by decide
    exact ⟨⟨rfl, rfl, hne, rendersErrorBanner_true _ (Or.inr rfl) hne⟩,
           ⟨rfl, rfl, hne, rendersErrorBanner_true _ (Or.inl rfl) hne⟩⟩
  · simp only [Bool.not_eq_true] at hcfg
    rcases hfail with hmiss | ⟨m, rfl, hm⟩ | ⟨resp, rfl, hok⟩
    · exact absurd hmiss (by simp [hcfg])
    · rw [uploadSubmit_reject s cfg m se file hsel hcfg, capture_reject s img cfg m se hcfg]
      have hne : catchMessage m ≠ "" := catchMessage_ne_empty m hm
      exact ⟨⟨rfl, rfl, hne, rendersErrorBanner_true _ (Or.inr rfl) hne⟩,
             ⟨rfl, rfl, hne, rendersErrorBanner_true _ (Or.inl rfl) hne⟩⟩
    · rw [uploadSubmit_badResponse s cfg resp se file hsel hcfg hok,
          capture_badResponse s img cfg resp se hcfg hok]
      have hne : catchMessage (remoteErrorMessage resp) ≠ "" :=
        catchMessage_ne_empty _ (remoteErrorMessage_ne_empty resp)
      exact ⟨⟨rfl, rfl, hne, rendersErrorBanner_true _ (Or.inr rfl) hne⟩,
             ⟨rfl, rfl, hne, rendersErrorBanner_true _ (Or.inl rfl) hne⟩⟩

/-- Witness: a concrete transport failure on the upload path ends in the upload view showing
the network-error message. -/
theorem failure_returns_to_origin_witness :
    (handleUploadSubmit uploadReadyState (some "http://api")
        (NetOutcome.reject "Failed to fetch") "e").final.currentView = View.upload
    ∧ rendersErrorBanner (handleUploadSubmit uploadReadyState (some "http://api")
        (NetOutcome.reject "Failed to fetch") "e").final = true := by
  have h := failure_returns_to_origin uploadReadyState pngFile (some "http://api")
    (NetOutcome.reject "Failed to fetch") "e" "i" rfl
    (Or.inr (Or.inl ⟨"Failed to fetch", rfl, by decide⟩))
  exact ⟨h.1.2.1, h.1.2.2.2⟩

/-- C6: with the base-URL configuration absent (or empty), no request is ever sent to the
processing endpoint by either submission path, and any attempt that reaches submission fails
with the configuration error message. -/
theorem missing_base_url (s : AppState) (cfg : Option String) (net : NetOutcome) (se img : String)
    (hcfg : baseUrlMissing cfg = true) :
    (handleUploadSubmit s cfg net se).request = none
    ∧ (handleCapture s img cfg net se).request = none
    ∧ (∀ file, s.selectedFile = some file →
        (handleUploadSubmit s cfg net se).final.error = "API base URL is not configured")
    ∧ (handleCapture s img cfg net se).final.error = "API base URL is not configured" := by
  refine ⟨uploadSubmit_request_none s cfg net se (Or.inr hcfg),
          capture_request_none s img cfg net se hcfg, ?_, ?_⟩
  · intro file hsel
    rw [uploadSubmit_noCfg s cfg net se file hsel hcfg]
    rfl
  · rw [capture_noCfg s img cfg net se hcfg]
    rfl

/-- Witness: with no configured base URL a concrete capture submission sends nothing and shows
the configuration error. -/
theorem missing_base_url_witness :
    (handleCapture uploadReadyState "img" none (NetOutcome.reject "x") "e").request = none
    ∧ (handleCapture uploadReadyState "img" none (NetOutcome.reject "x") "e").final.error
      = "API base URL is not configured" := by
  have h := missing_base_url uploadReadyState none (NetOutcome.reject "x") "e" "img" rfl
  exact ⟨h.2.1, h.2.2.2⟩

/-- C7: submit on the upload path with no selected file sends no request, never enters the
loading view, and shows the validation error in the unchanged view. -/
theorem submit_without_file (s : AppState) (cfg : Option String) (net : NetOutcome) (se : String)
    (hsel : s.selectedFile = none) :
    (handleUploadSubmit s cfg net se).request = none
    ∧ (handleUploadSubmit s cfg net se).loading = none
    ∧ (handleUploadSubmit s cfg net se).final.currentView = s.currentView
    ∧ (handleUploadSubmit s cfg net se).final.error = "Please select an image file"
    ∧ (s.currentView = View.upload →
        rendersErrorBanner (handleUploadSubmit s cfg net se).final = true) := by
  have h : handleUploadSubmit s cfg net se =
      { loading := none
        final := { s with error := "Please select an image file" }
        request := none } := by
    unfold handleUploadSubmit
    rw [hsel]
  rw [h]
  refine ⟨rfl, rfl, rfl, rfl, ?_⟩
  intro hv
  exact rendersErrorBanner_true _ (Or.inr hv) (by simp)

/-- Witness: submitting from the upload view with no file selected sends nothing and shows the
validation error. -/
theorem submit_without_file_witness :
    (handleUploadSubmit (handleSelectUpload initialState) (some "http://api")
        (NetOutcome.reject "x") "e").request = none
    ∧ (handleUploadSubmit (handleSelectUpload initialState) (some "http://api")
        (NetOutcome.reject "x") "e").final.error = "Please select an image file"
    ∧ rendersErrorBanner (handleUploadSubmit (handleSelectUpload initialState)
        (some "http://api") (NetOutcome.reject "x") "e").final = true := by
  have h := submit_without_file (handleSelectUpload initialState) (some "http://api")
    (NetOutcome.reject "x") "e" rfl
  exact ⟨h.1, h.2.2.2.1, h.2.2.2.2 rfl⟩

/-- C8: a chosen file whose MIME type does not start with "image/" is rejected at selection
time with the inline validation error and the stored file unchanged; no reachable state holds
it as the pending file, and no request ever sent carries it as the submitted image. -/
theorem invalid_file_never_submitted (f : FileData) (hf : strStartsWith f.type "image/" = false) :
    (∀ s : AppState, (handleFileSelect s (some f)).selectedFile = s.selectedFile
        ∧ (handleFileSelect s (some f)).error = "Please select a valid image file")
    ∧ (∀ s : AppState, Reachable s → s.selectedFile ≠ some f)
    ∧ (∀ (s : AppState) (e : Event) (req : Request), Reachable s →
        stepRequest s e = some req → req.original_image ≠ f) := by
  refine ⟨?_, ?_, ?_⟩
  · intro s
    constructor <;> simp [handleFileSelect, hf]
  · intro s hreach hsel
    have himg := reachable_selectedFile_image hreach f hsel
    rw [hf] at himg
    exact Bool.noConfusion himg
  · intro s e req hreach hreq hne
    have himg := reachable_request_image hreach e req hreq
    rw [hne, hf] at himg
    exact Bool.noConfusion himg

/-- Witness: a concrete text file is rejected at selection, leaving no stored file in the
initial state. -/
theorem invalid_file_never_submitted_witness :
    (handleFileSelect initialState (some textFile)).selectedFile = none
    ∧ (handleFileSelect initialState (some textFile)).error = "Please select a valid image file"
    ∧ initialState.selectedFile ≠ some textFile := by
  have h := invalid_file_never_submitted textFile (by decide)
  exact ⟨(h.1 initialState).1, (h.1 initialState).2, h.2.1 initialState Reachable.init⟩

/-- C9: toggling the exposure-mode toggle into macro (manual) mode resets exposureTime to 2.5,
iso to 400 and exposureCompensation to 0, and the manual-mode constraints then applied to the
active track carry exactly those defaults. -/
theorem macro_toggle_resets (s : CameraState) (h : s.isMacroMode = false) :
    (toggleMacroMode s).exposureTime = 2.5
    ∧ (toggleMacroMode s).iso = 400
    ∧ (toggleMacroMode s).exposureCompensation = 0
    ∧ applySettings (toggleMacroMode s)
      = [TrackConstraint.torch s.isFlashOn, TrackConstraint.manualExposure 2.5 0 400] := by
  have ht : toggleMacroMode s =
      { s with isMacroMode := true, exposureTime := 2.5, iso := 400, exposureCompensation := 0 } := by
    unfold toggleMacroMode
    rw [h]
    rfl
  rw [ht]
  exact ⟨rfl, rfl, rfl, rfl⟩

/-- Witness: toggling into macro mode from auto mode with altered exposure values restores the
defaults before they are applied. -/
theorem macro_toggle_resets_witness :
    applySettings (toggleMacroMode { initialCameraState with
        isMacroMode := false, exposureTime := 7.3, iso := 800 })
      = [TrackConstraint.torch true, TrackConstraint.manualExposure 2.5 0 400] :=
  (macro_toggle_resets { initialCameraState with
      isMacroMode := false, exposureTime := 7.3, iso := 800 } rfl).2.2.2

/-- C10: when file selection yields no file or a non-image file, the previously selected valid
image stays selected while the validation error is displayed, and submitting still sends it to
the endpoint. -/
theorem prior_selection_survives (s : AppState) (g f : FileData) (ev : Option FileData)
    (hsel : s.selectedFile = some g)
    (hev : ev = none ∨ (ev = some f ∧ strStartsWith f.type "image/" = false)) :
    (handleFileSelect s ev).selectedFile = some g
    ∧ (handleFileSelect s ev).error = "Please select a valid image file"
    ∧ (s.currentView = View.upload → rendersErrorBanner (handleFileSelect s ev) = true)
    ∧ (∀ (baseUrl : String) (net : NetOutcome) (se : String), baseUrl ≠ "" →
        (handleUploadSubmit (handleFileSelect s ev) (some baseUrl) net se).request
          = some { url := baseUrl ++ "/finger/capture"
                   finger_type := s.selectedFinger.str
                   original_image := g }) := by
  have hstate : handleFileSelect s ev = { s with error := "Please select a valid image file" } := by
    rcases hev with rfl | ⟨rfl, hf⟩
    · rfl
    · simp [handleFileSelect, hf]
  rw [hstate]
  refine ⟨hsel, rfl, ?_, ?_⟩
  · intro hv
    exact rendersErrorBanner_true _ (Or.inr hv) (by simp)
  · intro baseUrl net se hurl
    exact uploadSubmit_request_eq _ (some baseUrl) net se g hsel
      (by simp [baseUrlMissing, hurl])

/-- Witness: after a rejected text-file selection the previously selected image is still
submitted. -/
theorem prior_selection_survives_witness :
    (handleFileSelect uploadReadyState (some textFile)).selectedFile = some pngFile
    ∧ (handleUploadSubmit (handleFileSelect uploadReadyState (some textFile)) (some "http://api")
        (NetOutcome.reject "x") "e").request
      = some { url := "http://api/finger/capture", finger_type := "index"
               original_image := pngFile } := by
  have h := prior_selection_survives uploadReadyState pngFile textFile (some textFile) rfl
    (Or.inr ⟨rfl, by decide⟩)
  exact ⟨h.1, h.2.2.2 "http://api" (NetOutcome.reject "x") "e" (by decide)⟩

end SandboxFE
